import Mathlib

/-!
Shallow embedding of the TrackForge session/authentication core
(`backend/app/core/security.py`, `backend/app/core/config.py`,
`backend/app/domains/auth/service.py`, `backend/app/domains/auth/models.py`,
`backend/app/core/idempotency.py`, `backend/app/core/tasks.py`).

Modelling conventions:
* wall-clock instants are natural-number timestamps in seconds; every
  occurrence of `datetime.now(UTC)` in the source becomes an explicit `now`
  parameter;
* the nondeterministic `uuid4()` calls become explicit string parameters;
* HS256 signing (`jwt.encode`) is modelled symbolically: a signed token is
  the pair of its claim set and the signing key, and `jwt.decode` with key
  `k` succeeds exactly on tokens signed with `k` (MAC unforgeability);
* SHA-256 digests are modelled symbolically as their preimages
  (collision resistance);
* the SQLAlchemy session is modelled as explicit state passing of a `Db`
  value; an operation that raises after mutating the session returns the
  mutated state together with the error.
-/

namespace TrackForge

/-- Application settings (`config.py`, class `Settings`); only the fields the
auth core reads are embedded. -/
structure Settings where
  secret_key : String
  access_token_secret_key : String
  refresh_token_secret_key : String
  access_token_expire_minutes : Nat
  refresh_token_expire_days : Nat
  token_issuer : String
  token_audience : String
deriving DecidableEq, Repr

/-- The default configuration values of `config.py`; note that all three
signing secrets share one default string. -/
def defaultSettings : Settings where
  secret_key := "change-me-in-production-use-openssl-rand-hex-32"
  access_token_secret_key := "change-me-in-production-use-openssl-rand-hex-32"
  refresh_token_secret_key := "change-me-in-production-use-openssl-rand-hex-32"
  access_token_expire_minutes := 15
  refresh_token_expire_days := 7
  token_issuer := "myapp.com"
  token_audience := "myapp-api"

/-- The claim set written by `create_access_token` / `create_refresh_token`.
Access tokens carry no `family` claim (`none`); refresh tokens carry
`some familyId`. -/
structure Claims where
  sub : String
  exp : Nat
  iat : Nat
  nbf : Nat
  jti : String
  type : String
  family : Option String
  iss : String
  aud : String
deriving DecidableEq, Repr

/-- A signed JWT, modelled symbolically as its claim set together with the
HS256 key it was signed with. -/
structure Token where
  claims : Claims
  key : String
deriving DecidableEq, Repr

/-- `create_access_token` (`security.py`): returns `(token, jti, expires_at)`
with `type = "access"`, signed under `access_token_secret_key`. The
`expires_delta`/`additional_claims` parameters are never supplied by the auth
core and are omitted. -/
def create_access_token (s : Settings) (subject : String) (now : Nat)
    (jti : String) : Token × String × Nat :=
  let expire := now + s.access_token_expire_minutes * 60
  (⟨{ sub := subject, exp := expire, iat := now, nbf := now, jti := jti,
      type := "access", family := none,
      iss := s.token_issuer, aud := s.token_audience },
    s.access_token_secret_key⟩, jti, expire)

/-- `create_refresh_token` (`security.py`): returns
`(token, jti, family, expires_at)` with `type = "refresh"`, signed under
`refresh_token_secret_key`; `fresh_family` stands for the `uuid4()` used when
no family id is supplied. -/
def create_refresh_token (s : Settings) (subject : String)
    (family_id : Option String) (now : Nat) (jti fresh_family : String) :
    Token × String × String × Nat :=
  let expire := now + s.refresh_token_expire_days * 86400
  let family := family_id.getD fresh_family
  (⟨{ sub := subject, exp := expire, iat := now, nbf := now, jti := jti,
      type := "refresh", family := some family,
      iss := s.token_issuer, aud := s.token_audience },
    s.refresh_token_secret_key⟩, jti, family, expire)

/-- `decode_token` (`security.py`): `jose.jwt.decode` verifies the signature
against `settings.secret_key`, the issuer, the audience, and the
`nbf`/`exp` window; every failure collapses to one error. -/
def decode_token (s : Settings) (now : Nat) (t : Token) :
    Except String Claims :=
  if t.key = s.secret_key ∧ t.claims.iss = s.token_issuer ∧
      t.claims.aud = s.token_audience ∧ t.claims.nbf ≤ now ∧
      now ≤ t.claims.exp then
    Except.ok t.claims
  else
    Except.error "Invalid or expired token"

/-- A SHA-256 digest of an encoded token (`hash_token` in
`auth/service.py`), modelled symbolically as its preimage. -/
structure TokenHash where
  digest : Token
deriving DecidableEq, Repr

/-- `hash_token` (`auth/service.py`). -/
def hash_token (t : Token) : TokenHash := ⟨t⟩

/-- Row of the `users` table (`auth/models.py`, class `User`); only the
columns the auth core reads are embedded. -/
structure UserRow where
  id : String
  is_active : Bool
deriving DecidableEq, Repr

/-- Row of the `refresh_tokens` table (`auth/models.py`, class
`RefreshToken`). -/
structure RefreshTokenRow where
  id : String
  user_id : String
  token_hash : TokenHash
  family_id : String
  expires_at : Nat
  revoked_at : Option Nat
  created_at : Nat
deriving DecidableEq, Repr

/-- `RefreshToken.is_revoked` (`auth/models.py`). -/
def RefreshTokenRow.is_revoked (r : RefreshTokenRow) : Bool :=
  r.revoked_at.isSome

/-- `RefreshToken.is_expired` (`auth/models.py`):
`datetime.now(UTC) > expires_at`. -/
def RefreshTokenRow.is_expired (r : RefreshTokenRow) (now : Nat) : Bool :=
  decide (r.expires_at < now)

/-- Row of the `revoked_access_tokens` table (`auth/models.py`, class
`RevokedAccessToken`). -/
structure RevokedAccessTokenRow where
  jti : String
  revoked_at : Nat
  expires_at : Nat
deriving DecidableEq, Repr

/-- A SHA-256 hex digest of a string, modelled symbolically as its
preimage. -/
structure Sha256Hex where
  preimage : String
deriving DecidableEq, Repr

/-- Python's decimal rendering `str(n)` of a nonnegative integer, as stored
in the VARCHAR `response_status` column; modelled symbolically as the integer
it renders, so that `str` is injective and `int (str n) = n`, exactly the
behaviour of the decimal codec on the values the code stores. -/
structure PyIntStr where
  val : Nat
deriving DecidableEq, Repr

/-- Row of the `idempotency_keys` table (`idempotency.py`, class
`IdempotencyKey`); `created_at` is always populated by the column default. -/
structure IdempotencyKeyRow where
  key : Sha256Hex
  user_id : String
  status : String
  response_status : Option PyIntStr
  response_body : Option (List (String × String))
  created_at : Nat
deriving DecidableEq, Repr

/-- The whole relational store, one list per table. -/
structure Db where
  users : List UserRow
  refresh_tokens : List RefreshTokenRow
  revoked_access_tokens : List RevokedAccessTokenRow
  idempotency_keys : List IdempotencyKeyRow
deriving DecidableEq, Repr

/-- The service raises `UnauthorizedError(message)` on every auth failure. -/
inductive AuthError where
  | unauthorized (message : String)
deriving DecidableEq, Repr

/-- The token pair returned by a successful rotation (`AuthTokens` schema). -/
structure AuthTokens where
  access_token : Token
  refresh_token : Token
deriving DecidableEq, Repr

/-- Mutating the single ORM object returned by a unique-indexed lookup:
update the first row satisfying `p` (the unique constraint guarantees there
is at most one). -/
def updateFirst (p : α → Bool) (f : α → α) : List α → List α
  | [] => []
  | a :: as => if p a then f a :: as else a :: updateFirst p f as

/-- `revoke_token_family` (`auth/service.py`): set `revoked_at = now` on
every row of the family whose `revoked_at` is NULL. -/
def revoke_token_family (db : Db) (family_id : String) (now : Nat) : Db :=
  let revoked := db.refresh_tokens.map fun r =>
    if r.family_id == family_id && r.revoked_at.isNone then
      { r with revoked_at := some now }
    else r
  { db with refresh_tokens := revoked }

/-- `refresh_tokens` (`auth/service.py`): token rotation with reuse
detection. `new_access_jti`, `new_refresh_jti` and `new_row_id` stand for
the three `uuid4()` draws. Session mutations performed before a raise are
kept in the returned state. -/
def refresh_tokens_op (s : Settings) (db : Db) (refresh_token : Token)
    (now : Nat) (new_access_jti new_refresh_jti new_row_id : String) :
    Db × Except AuthError AuthTokens :=
  match decode_token s now refresh_token with
  | Except.error _ =>
      (db, Except.error (AuthError.unauthorized "Invalid refresh token"))
  | Except.ok payload =>
    if payload.type ≠ "refresh" then
      (db, Except.error (AuthError.unauthorized "Invalid token type"))
    else
      let user_id := payload.sub
      match payload.family with
      | none =>
          (db, Except.error (AuthError.unauthorized "Invalid refresh token"))
      | some family_id =>
        if user_id = "" ∨ family_id = "" then
          (db, Except.error (AuthError.unauthorized "Invalid refresh token"))
        else
          let token_hash := hash_token refresh_token
          match db.refresh_tokens.find? (fun r => r.token_hash == token_hash) with
          | none =>
              (revoke_token_family db family_id now,
               Except.error (AuthError.unauthorized
                 "Invalid refresh token - possible reuse detected"))
          | some token_record =>
            if token_record.is_revoked then
              (revoke_token_family db family_id now,
               Except.error (AuthError.unauthorized
                 "Refresh token reuse detected"))
            else if token_record.is_expired now then
              (db, Except.error (AuthError.unauthorized
                "Refresh token expired"))
            else
              match db.users.find? (fun u => u.id == user_id) with
              | none =>
                  (db, Except.error (AuthError.unauthorized
                    "User not found or disabled"))
              | some user =>
                if ¬ user.is_active then
                  (db, Except.error (AuthError.unauthorized
                    "User not found or disabled"))
                else
                  let rotated :=
                    updateFirst (fun r => r.token_hash == token_hash)
                      (fun r => { r with revoked_at := some now })
                      db.refresh_tokens
                  let db1 : Db := { db with refresh_tokens := rotated }
                  let (new_access_token, _, _) :=
                    create_access_token s user_id now new_access_jti
                  let (new_refresh_token, _, _, new_refresh_exp) :=
                    create_refresh_token s user_id (some family_id) now
                      new_refresh_jti ""
                  let new_row : RefreshTokenRow :=
                    { id := new_row_id, user_id := user_id,
                      token_hash := hash_token new_refresh_token,
                      family_id := family_id,
                      expires_at := new_refresh_exp,
                      revoked_at := none, created_at := now }
                  ({ db1 with refresh_tokens :=
                      db1.refresh_tokens ++ [new_row] },
                   Except.ok ⟨new_access_token, new_refresh_token⟩)

/-- `logout_user` (`auth/service.py`): best-effort revocation of the current
access token (by jti) and of the refresh family carried by an optionally
supplied refresh token; a decode failure on the latter is swallowed. -/
def logout_user (s : Settings) (db : Db) (access_jti : Option String)
    (refresh_token : Option Token) (expires_at : Option Nat) (now : Nat) :
    Db :=
  let db1 :=
    match access_jti with
    | none => db
    | some jti =>
      if jti = "" then db
      else if db.revoked_access_tokens.any (fun r => r.jti == jti) then db
      else
        let ea := expires_at.getD (now + 15 * 60)
        let new_row : RevokedAccessTokenRow :=
          { jti := jti, revoked_at := now, expires_at := ea }
        { db with revoked_access_tokens :=
            db.revoked_access_tokens ++ [new_row] }
  match refresh_token with
  | none => db1
  | some tok =>
    match decode_token s now tok with
    | Except.error _ => db1
    | Except.ok payload =>
      match payload.family with
      | none => db1
      | some family_id =>
        if family_id = "" then db1
        else revoke_token_family db1 family_id now

/-- `is_access_token_revoked` (`auth/service.py`). -/
def is_access_token_revoked (db : Db) (jti : String) : Bool :=
  db.revoked_access_tokens.any (fun r => r.jti == jti)

/-- `cleanup_expired_revoked_tokens` (`auth/service.py`): bulk delete of
`revoked_access_tokens` rows with `expires_at < now`; returns the rowcount. -/
def cleanup_expired_revoked_tokens (db : Db) (now : Nat) : Db × Nat :=
  let remaining :=
    db.revoked_access_tokens.filter (fun r => ¬ (r.expires_at < now))
  ({ db with revoked_access_tokens := remaining },
   db.revoked_access_tokens.length - remaining.length)

/-- `cleanup_expired_refresh_tokens` (`auth/service.py`): bulk delete of
`refresh_tokens` rows with `expires_at < now`; returns the rowcount. No code
under `app/` ever calls this function. -/
def cleanup_expired_refresh_tokens (db : Db) (now : Nat) : Db × Nat :=
  let remaining :=
    db.refresh_tokens.filter (fun r => ¬ (r.expires_at < now))
  ({ db with refresh_tokens := remaining },
   db.refresh_tokens.length - remaining.length)

/-- `IDEMPOTENCY_KEY_TTL` (`idempotency.py`): `timedelta(hours=24)`, in
seconds. -/
def IDEMPOTENCY_KEY_TTL : Nat := 24 * 3600

/-- `sha256(...).hexdigest()` on a string, modelled symbolically. -/
def sha256_hexdigest (s : String) : Sha256Hex := ⟨s⟩

/-- `generate_idempotency_hash` (`idempotency.py`): SHA-256 of
`f"{user_id}:{key}"`. -/
def generate_idempotency_hash (user_id key : String) : Sha256Hex :=
  sha256_hexdigest (user_id ++ ":" ++ key)

/-- `get_idempotency_record` (`idempotency.py`): look the record up by key
hash; if it is older than the TTL, delete it at read time and report no
record. Timestamp subtraction is over naturals; for `now < created_at` both
the Python timedelta comparison and the truncated subtraction make the age
test false, so the branch agrees with the source on all inputs. -/
def get_idempotency_record (db : Db) (user_id idempotency_key : String)
    (now : Nat) : Db × Option IdempotencyKeyRow :=
  let key_hash := generate_idempotency_hash user_id idempotency_key
  match db.idempotency_keys.find? (fun r => r.key == key_hash) with
  | none => (db, none)
  | some record =>
    if IDEMPOTENCY_KEY_TTL < now - record.created_at then
      let kept := db.idempotency_keys.eraseP (fun r => r.key == key_hash)
      ({ db with idempotency_keys := kept }, none)
    else
      (db, some record)

/-- `int(record.response_status or 200)` (`idempotency.py`): the stored
decimal string parsed back, defaulting to 200 when NULL. -/
def cached_status (r : IdempotencyKeyRow) : Nat :=
  match r.response_status with
  | none => 200
  | some p => p.val

/-- `record.response_body or {}` (`idempotency.py`). -/
def cached_body (r : IdempotencyKeyRow) : List (String × String) :=
  r.response_body.getD []

/-- `start_idempotency_request` (`idempotency.py`): returns the updated
store together with the Python result triple
`(should_proceed, status_code, response_body)`. The `flush` of the new
`processing` row fails exactly when a row with the same key hash already
exists (the primary-key uniqueness constraint); that branch rolls the
transaction back to the state at entry and re-reads. -/
def start_idempotency_request (db : Db) (user_id idempotency_key : String)
    (now : Nat) :
    Db × (Bool × Option Nat × Option (List (String × String))) :=
  let key_hash := generate_idempotency_hash user_id idempotency_key
  let (db1, found) := get_idempotency_record db user_id idempotency_key now
  let db2 :=
    match found with
    | none => db1
    | some record =>
      if record.status == "failed" then
        { db1 with idempotency_keys :=
            db1.idempotency_keys.eraseP (fun r => r.key == key_hash) }
      else db1
  match found with
  | some record =>
    if record.status == "completed" then
      (db1, (false, some (cached_status record), some (cached_body record)))
    else if record.status == "processing" then
      (db1, (false, some 409, some [("message", "Request already in progress")]))
    else
      start_insert db db2 user_id idempotency_key now
  | none =>
      start_insert db db2 user_id idempotency_key now
where
  /-- The insert path of `start_idempotency_request`: add a fresh
  `processing` row; on a unique-key flush failure, roll back to `db0` and
  re-read. -/
  start_insert (db0 db2 : Db) (user_id idempotency_key : String) (now : Nat) :
      Db × (Bool × Option Nat × Option (List (String × String))) :=
    let key_hash := generate_idempotency_hash user_id idempotency_key
    let new_record : IdempotencyKeyRow :=
      { key := key_hash, user_id := user_id, status := "processing",
        response_status := none, response_body := none, created_at := now }
    if db2.idempotency_keys.any (fun r => r.key == key_hash) then
      let (db3, again) := get_idempotency_record db0 user_id idempotency_key now
      match again with
      | some r2 =>
        if r2.status == "completed" then
          (db3, (false, some (cached_status r2), some (cached_body r2)))
        else
          (db3, (false, some 409,
            some [("message", "Request already in progress or failed")]))
      | none =>
          (db3, (false, some 409,
            some [("message", "Request already in progress or failed")]))
    else
      ({ db2 with idempotency_keys := db2.idempotency_keys ++ [new_record] },
       (true, none, none))

/-- `store_idempotency_response` (`idempotency.py`): stamp the record
`completed` with the response status (stored as `str(status_code)`) and
body; a no-op when no record exists. -/
def store_idempotency_response (db : Db) (user_id idempotency_key : String)
    (status_code : Nat) (response_body : List (String × String)) : Db :=
  let key_hash := generate_idempotency_hash user_id idempotency_key
  let updated := updateFirst (fun r => r.key == key_hash)
    (fun r => { r with status := "completed",
                       response_status := some (PyIntStr.mk status_code),
                       response_body := some response_body })
    db.idempotency_keys
  { db with idempotency_keys := updated }

/-- `mark_idempotency_failed` (`idempotency.py`): stamp the record `failed`;
a no-op when no record exists. -/
def mark_idempotency_failed (db : Db) (user_id idempotency_key : String) :
    Db :=
  let key_hash := generate_idempotency_hash user_id idempotency_key
  let updated := updateFirst (fun r => r.key == key_hash)
    (fun r => { r with status := "failed" })
    db.idempotency_keys
  { db with idempotency_keys := updated }

/-- `cleanup_expired_idempotency_keys` (`idempotency.py`): bulk delete of
rows with `created_at < now - TTL`; returns the rowcount. The truncated
natural subtraction in the cutoff agrees with the integer semantics because
`created_at < cutoff` is false in both readings when `now ≤ TTL`. -/
def cleanup_expired_idempotency_keys (db : Db) (now : Nat) : Db × Nat :=
  let cutoff := now - IDEMPOTENCY_KEY_TTL
  let remaining :=
    db.idempotency_keys.filter (fun r => ¬ (r.created_at < cutoff))
  ({ db with idempotency_keys := remaining },
   db.idempotency_keys.length - remaining.length)

/-- One iteration of the body of `cleanup_task` (`tasks.py`): the hourly
background sweep. It deletes expired idempotency keys and expired revoked
access tokens; it performs no other deletion. -/
def cleanup_task_iteration (db : Db) (now : Nat) : Db :=
  let (db1, _) := cleanup_expired_idempotency_keys db now
  let (db2, _) := cleanup_expired_revoked_tokens db1 now
  db2

/-! ## Concrete instances used to evaluate the model -/

/-- A configuration in which the two per-type signing secrets differ and the
generic verification secret coincides with the refresh secret. -/
def splitSecretSettings : Settings :=
  { defaultSettings with
      secret_key := "refresh-secret-R"
      access_token_secret_key := "access-secret-A"
      refresh_token_secret_key := "refresh-secret-R" }

/-- A token with `type = "access"` signed using only the refresh secret of
`splitSecretSettings`. -/
def forgedAccessToken : Token :=
  ⟨{ sub := "victim", exp := 1000, iat := 0, nbf := 0, jti := "forged-jti",
     type := "access", family := none,
     iss := "myapp.com", aud := "myapp-api" }, "refresh-secret-R"⟩

/-- A refresh token whose stored credential row is long past expiry. -/
def c3Token : Token :=
  ⟨{ sub := "u1", exp := 10, iat := 0, nbf := 0, jti := "rj1",
     type := "refresh", family := some "famX",
     iss := "myapp.com", aud := "myapp-api" }, "k"⟩

/-- A `refresh_tokens` row that expired at time 10. -/
def c3RefreshRow : RefreshTokenRow :=
  { id := "r1", user_id := "u1", token_hash := hash_token c3Token,
    family_id := "famX", expires_at := 10, revoked_at := none,
    created_at := 0 }

/-- A store holding one expired row in each of the three swept tables. -/
def c3Db : Db :=
  { users := [],
    refresh_tokens := [c3RefreshRow],
    revoked_access_tokens := [{ jti := "aj1", revoked_at := 0, expires_at := 10 }],
    idempotency_keys := [{ key := generate_idempotency_hash "u1" "k1",
                           user_id := "u1", status := "completed",
                           response_status := some (PyIntStr.mk 201),
                           response_body := some [("id", "x")],
                           created_at := 0 }] }

/-- A store with all four tables empty. -/
def emptyDb : Db :=
  { users := [], refresh_tokens := [], revoked_access_tokens := [],
    idempotency_keys := [] }

/-- An idempotency record sitting in status `processing`. -/
def c7Record : IdempotencyKeyRow :=
  { key := generate_idempotency_hash "u1" "k2", user_id := "u1",
    status := "processing", response_status := none, response_body := none,
    created_at := 0 }

/-- A store holding only `c7Record`. -/
def c7Db : Db := { emptyDb with idempotency_keys := [c7Record] }

/-- An idempotency record in status `failed`. -/
def c8Record : IdempotencyKeyRow :=
  { key := generate_idempotency_hash "u1" "k3", user_id := "u1",
    status := "failed", response_status := none, response_body := none,
    created_at := 0 }

/-- A store holding only `c8Record`. -/
def c8Db : Db := { emptyDb with idempotency_keys := [c8Record] }

/-- An idempotency record in status `processing` created at time 0, one
second older than the TTL at time 86401. -/
def c10Record : IdempotencyKeyRow :=
  { key := generate_idempotency_hash "u1" "k9", user_id := "u1",
    status := "processing", response_status := none, response_body := none,
    created_at := 0 }

/-- A store holding only `c10Record`. -/
def c10Db : Db := { emptyDb with idempotency_keys := [c10Record] }

/-- The `new_token_record` row inserted by a successful `refresh_tokens`
rotation: same subject and family, fresh hash and expiry, not revoked. -/
def rotation_new_row (s : Settings) (T : Token) (fam : String) (now : Nat)
    (jR rid : String) : RefreshTokenRow :=
  { id := rid, user_id := T.claims.sub,
    token_hash :=
      hash_token (create_refresh_token s T.claims.sub (some fam) now jR "").1,
    family_id := fam,
    expires_at := now + s.refresh_token_expire_days * 86400,
    revoked_at := none, created_at := now }

/-- Positional preservation of revocation timestamps: every row of `old`
whose `revoked_at` is set keeps exactly that timestamp at the same position
of `new`. -/
def preservesRevocations (old new : List RefreshTokenRow) : Prop :=
  ∀ (i : Nat) (r : RefreshTokenRow) (t : Nat),
    old[i]? = some r → r.revoked_at = some t →
    ∃ r', new[i]? = some r' ∧ r'.revoked_at = some t

/-- The refresh token R0 held by the stored credential of `w1Db`. -/
def w1R0 : Token :=
  (create_refresh_token defaultSettings "u1" (some "fam1") 0 "jti0" "x").1

/-- The stored, active credential row for `w1R0`. -/
def w1Row : RefreshTokenRow :=
  { id := "row0", user_id := "u1", token_hash := hash_token w1R0,
    family_id := "fam1", expires_at := 604800, revoked_at := none,
    created_at := 0 }

/-- A store with one active user and the single credential `w1Row`. -/
def w1Db : Db :=
  { users := [{ id := "u1", is_active := true }],
    refresh_tokens := [w1Row], revoked_access_tokens := [],
    idempotency_keys := [] }

/-- A refresh token whose stored row in `w4Db` is past expiry. -/
def w4Tok : Token :=
  (create_refresh_token defaultSettings "u2" (some "fam2") 0 "jtiE" "x").1

/-- The expired (at time 10) credential row for `w4Tok`. -/
def w4Row : RefreshTokenRow :=
  { id := "rowE", user_id := "u2", token_hash := hash_token w4Tok,
    family_id := "fam2", expires_at := 5, revoked_at := none,
    created_at := 0 }

/-- A still-active sibling refresh token in the same family as `w4Tok`. -/
def w4Sib : Token :=
  (create_refresh_token defaultSettings "u2" (some "fam2") 0 "jtiS" "x").1

/-- The active credential row for `w4Sib`. -/
def w4SibRow : RefreshTokenRow :=
  { id := "rowS", user_id := "u2", token_hash := hash_token w4Sib,
    family_id := "fam2", expires_at := 604800, revoked_at := none,
    created_at := 0 }

/-- A store with one active user and the two same-family rows `w4Row`
(expired) and `w4SibRow` (active). -/
def w4Db : Db :=
  { users := [{ id := "u2", is_active := true }],
    refresh_tokens := [w4Row, w4SibRow], revoked_access_tokens := [],
    idempotency_keys := [] }

end TrackForge

namespace TrackForge

/-! ## List helper lemmas -/

lemma find?_of_filter_eq_singleton {α} (p : α → Bool) (l : List α) (r : α)
    (h : l.filter p = [r]) : l.find? p = some r := by
  induction l with
  | nil => simp at h
  | cons a as ih =>
    by_cases hp : p a
    · rw [List.filter_cons_of_pos hp] at h
      rw [List.find?_cons_of_pos _ hp]
      exact congrArg some (List.cons.injEq _ _ _ _ ▸ h).1
    · rw [List.filter_cons_of_neg hp] at h
      rw [List.find?_cons_of_neg _ hp]
      exact ih h

lemma any_eraseP_of_filter_eq_singleton {α} (p : α → Bool) (l : List α) (r : α)
    (h : l.filter p = [r]) : (l.eraseP p).any p = false := by
  induction l with
  | nil => simp
  | cons a as ih =>
    by_cases hp : p a
    · rw [List.eraseP_cons_of_pos hp]
      rw [List.filter_cons_of_pos hp] at h
      have h2 : as.filter p = [] := (List.cons.injEq _ _ _ _ ▸ h).2
      rw [List.any_eq_false]
      intro x hx
      exact (List.filter_eq_nil_iff.mp h2) x hx
    · rw [List.eraseP_cons_of_neg hp]
      rw [List.filter_cons_of_neg hp] at h
      simp [hp, ih h]

lemma eraseP_append_of_forall_not {α} (p : α → Bool) (l1 l2 : List α)
    (h : ∀ x ∈ l1, p x = false) :
    (l1 ++ l2).eraseP p = l1 ++ l2.eraseP p := by
  induction l1 with
  | nil => simp
  | cons a as ih =>
    have ha : p a = false := h a (by simp)
    simp only [List.cons_append, List.eraseP_cons, ha, cond_false]
    rw [ih fun x hx => h x (by simp [hx])]

lemma find?_append_some {α} (p : α → Bool) {l1 : List α} (l2 : List α) {a : α}
    (h : l1.find? p = some a) : (l1 ++ l2).find? p = some a := by
  rw [List.find?_append, h]; rfl

lemma find?_append_none {α} (p : α → Bool) {l1 : List α} (l2 : List α)
    (h : l1.find? p = none) : (l1 ++ l2).find? p = l2.find? p := by
  rw [List.find?_append, h]; rfl

lemma updateFirst_append_of_forall_not {α} (p : α → Bool) (f : α → α)
    (l1 l2 : List α) (h : ∀ x ∈ l1, p x = false) :
    updateFirst p f (l1 ++ l2) = l1 ++ updateFirst p f l2 := by
  induction l1 with
  | nil => simp
  | cons a as ih =>
    have ha : p a = false := h a (by simp)
    simp only [List.cons_append, updateFirst, ha]
    simp only [Bool.false_eq_true, if_false, List.cons.injEq, true_and]
    exact ih fun x hx => h x (by simp [hx])

lemma find?_updateFirst_some {α} (p : α → Bool) (f : α → α) {l : List α}
    {r : α} (h : l.find? p = some r) (hf : p (f r) = true) :
    (updateFirst p f l).find? p = some (f r) := by
  induction l with
  | nil => simp [List.find?] at h
  | cons a as ih =>
    by_cases hp : p a
    · rw [List.find?_cons_of_pos _ hp] at h
      have ha : a = r := Option.some.injEq _ _ ▸ h
      subst ha
      simp only [updateFirst, hp, if_true]
      exact List.find?_cons_of_pos _ hf
    · rw [List.find?_cons_of_neg _ hp] at h
      simp only [updateFirst, hp, Bool.false_eq_true, if_false]
      rw [List.find?_cons_of_neg _ hp]
      exact ih h

lemma any_eq_false_of_find?_eq_none {α} (p : α → Bool) {l : List α}
    (h : l.find? p = none) : l.any p = false := by
  rw [List.any_eq_false]
  exact fun x hx => List.find?_eq_none.mp h x hx

lemma mem_updateFirst {α} (p : α → Bool) (f : α → α) :
    ∀ {l : List α} {x}, x ∈ updateFirst p f l → ∃ y ∈ l, x = y ∨ x = f y := by
  intro l
  induction l with
  | nil => intro x hx; simp [updateFirst] at hx
  | cons a as ih =>
    intro x hx
    simp only [updateFirst] at hx
    by_cases hp : p a
    · rw [if_pos hp] at hx
      rcases List.mem_cons.mp hx with h | h
      · exact ⟨a, by simp, Or.inr h⟩
      · exact ⟨x, by simp [h], Or.inl rfl⟩
    · rw [if_neg hp] at hx
      rcases List.mem_cons.mp hx with h | h
      · exact ⟨a, by simp, Or.inl h⟩
      · obtain ⟨y, hy, hxy⟩ := ih h
        exact ⟨y, by simp [hy], hxy⟩

lemma decode_token_ok_claims {s : Settings} {now : Nat} {t : Token}
    {c : Claims} (h : decode_token s now t = Except.ok c) : c = t.claims := by
  unfold decode_token at h
  split at h
  · exact (Except.ok.injEq _ _ ▸ h).symm
  · exact absurd h (by simp)

/-! ## Rotation-engine helper lemmas -/

lemma refresh_rotation_success (s : Settings) (db : Db) (T : Token)
    (fam : String) (r0 : RefreshTokenRow) (u : UserRow) (now : Nat)
    (jA jR rid : String)
    (hdec : decode_token s now T = Except.ok T.claims)
    (htype : T.claims.type = "refresh")
    (hsub : T.claims.sub ≠ "")
    (hfam : T.claims.family = some fam)
    (hfamne : fam ≠ "")
    (hfind : db.refresh_tokens.find?
        (fun r => r.token_hash == hash_token T) = some r0)
    (hrev : r0.revoked_at = none)
    (hnexp : ¬ (r0.expires_at < now))
    (hufind : db.users.find? (fun x => x.id == T.claims.sub) = some u)
    (hact : u.is_active = true) :
    let rotated := updateFirst (fun r => r.token_hash == hash_token T)
      (fun r => { r with revoked_at := some now }) db.refresh_tokens
    refresh_tokens_op s db T now jA jR rid =
      ({ db with refresh_tokens :=
          rotated ++ [rotation_new_row s T fam now jR rid] },
       Except.ok ⟨(create_access_token s T.claims.sub now jA).1,
         (create_refresh_token s T.claims.sub (some fam) now jR "").1⟩) := by
  intro rotated
  simp [refresh_tokens_op, hdec, htype, hfam, hsub, hfamne, hfind,
    RefreshTokenRow.is_revoked, hrev, RefreshTokenRow.is_expired, hnexp,
    hufind, hact, rotation_new_row, create_access_token,
    create_refresh_token, rotated]

lemma refresh_rotation_reuse (s : Settings) (db : Db) (T : Token)
    (fam : String) (r0 : RefreshTokenRow) (now : Nat) (jA jR rid : String)
    (hdec : decode_token s now T = Except.ok T.claims)
    (htype : T.claims.type = "refresh")
    (hsub : T.claims.sub ≠ "")
    (hfam : T.claims.family = some fam)
    (hfamne : fam ≠ "")
    (hfind : db.refresh_tokens.find?
        (fun r => r.token_hash == hash_token T) = some r0)
    (hrev : r0.revoked_at.isSome = true) :
    refresh_tokens_op s db T now jA jR rid =
      (revoke_token_family db fam now,
       Except.error (AuthError.unauthorized "Refresh token reuse detected")) := by
  simp [refresh_tokens_op, hdec, htype, hfam, hsub, hfamne, hfind,
    RefreshTokenRow.is_revoked, hrev]

lemma revoke_token_family_all_revoked (db : Db) (fam : String) (now : Nat) :
    ∀ r ∈ (revoke_token_family db fam now).refresh_tokens,
      r.family_id = fam → r.revoked_at.isSome = true := by
  intro r hr hfamr
  simp only [revoke_token_family, List.mem_map] at hr
  obtain ⟨o, ho, heq⟩ := hr
  by_cases hc : (o.family_id == fam && o.revoked_at.isNone) = true
  · rw [if_pos hc] at heq
    rw [← heq]
    rfl
  · rw [if_neg hc] at heq
    subst heq
    have hbeq : (o.family_id == fam) = true := beq_iff_eq.mpr hfamr
    cases hor : o.revoked_at with
    | none => exact absurd (by simp [hbeq, hor]) hc
    | some v => simp [Option.isSome, hor]

lemma preservesRevocations_refl (l : List RefreshTokenRow) :
    preservesRevocations l l :=
  fun _ r t h1 h2 => ⟨r, h1, h2⟩

lemma preservesRevocations_trans {a b c : List RefreshTokenRow}
    (h1 : preservesRevocations a b) (h2 : preservesRevocations b c) :
    preservesRevocations a c := by
  intro i r t ha hr
  obtain ⟨r', hb, hr'⟩ := h1 i r t ha hr
  exact h2 i r' t hb hr'

lemma preservesRevocations_revoke_map (fam : String) (now : Nat)
    (l : List RefreshTokenRow) :
    preservesRevocations l (l.map fun r =>
      if r.family_id == fam && r.revoked_at.isNone then
        { r with revoked_at := some now }
      else r) := by
  intro i r t h1 h2
  rw [List.getElem?_map, h1]
  refine ⟨_, rfl, ?_⟩
  simp [h2]

lemma preservesRevocations_revoke (db : Db) (fam : String) (now : Nat) :
    preservesRevocations db.refresh_tokens
      (revoke_token_family db fam now).refresh_tokens :=
  preservesRevocations_revoke_map fam now db.refresh_tokens

lemma preservesRevocations_append {l l2 : List RefreshTokenRow}
    (l3 : List RefreshTokenRow) (h : preservesRevocations l l2) :
    preservesRevocations l (l2 ++ l3) := by
  intro i r t h1 h2
  obtain ⟨r', hb, hr'⟩ := h i r t h1 h2
  have hi : i < l2.length := by
    by_contra hc
    push_neg at hc
    rw [List.getElem?_eq_none hc] at hb
    exact Option.noConfusion hb
  refine ⟨r', ?_, hr'⟩
  rw [List.getElem?_append_left hi]
  exact hb

lemma preservesRevocations_updateFirst (p : RefreshTokenRow → Bool)
    (now : Nat) :
    ∀ {l : List RefreshTokenRow} {r0 : RefreshTokenRow},
      l.find? p = some r0 → r0.revoked_at = none →
      preservesRevocations l
        (updateFirst p (fun r => { r with revoked_at := some now }) l) := by
  intro l
  induction l with
  | nil => intro r0 hfind _; simp [List.find?] at hfind
  | cons a as ih =>
    intro r0 hfind hrev
    by_cases hp : p a
    · rw [List.find?_cons_of_pos _ hp] at hfind
      have ha : a = r0 := by injection hfind
      intro i r t h1 h2
      simp only [updateFirst, hp, if_true]
      match i with
      | 0 =>
        exfalso
        have : a = r := by simpa using h1
        rw [ha] at this
        rw [this] at hrev
        rw [hrev] at h2
        exact Option.noConfusion h2
      | Nat.succ j =>
        exact ⟨r, by simpa using h1, h2⟩
    · rw [List.find?_cons_of_neg _ hp] at hfind
      have hih := ih hfind hrev
      intro i r t h1 h2
      simp only [updateFirst, hp, Bool.false_eq_true, if_false]
      match i with
      | 0 => exact ⟨r, by simpa using h1, h2⟩
      | Nat.succ j =>
        obtain ⟨r', hb, hr'⟩ := hih j r t (by simpa using h1) h2
        exact ⟨r', by simpa using hb, hr'⟩

lemma find?_map_last_of_prefix_false {α} (g : α → α) (q : α → Bool)
    (l1 : List α) (a : α) (h1 : ∀ x ∈ l1, q (g x) = false)
    (h2 : q (g a) = true) :
    ((l1 ++ [a]).map g).find? q = some (g a) := by
  rw [List.map_append, List.find?_append]
  have hnone : (l1.map g).find? q = none := by
    rw [List.find?_eq_none]
    intro x hx
    obtain ⟨y, hy, rfl⟩ := List.mem_map.mp hx
    simp [h1 y hy]
  rw [hnone]
  simp [List.find?, h2]

/-! ## Claim theorems -/

/-- C1: rotating a refresh credential R0 succeeds and yields R1; replaying
R0 afterwards fails with the reuse `UnauthorizedError` and revokes every
active credential of R0's family, so that rotating R1 afterwards fails as
well: the whole family is dead after one detected reuse. -/
theorem rotation_reuse_revokes_family (s : Settings) (db : Db) (R0 : Token)
    (fam : String) (r0 : RefreshTokenRow) (u : UserRow) (now now2 : Nat)
    (jA jR rid jA2 jR2 rid2 : String)
    (hdec : decode_token s now R0 = Except.ok R0.claims)
    (hdec2 : decode_token s now2 R0 = Except.ok R0.claims)
    (htype : R0.claims.type = "refresh")
    (hsub : R0.claims.sub ≠ "")
    (hfam : R0.claims.family = some fam)
    (hfamne : fam ≠ "")
    (hfind : db.refresh_tokens.find?
        (fun r => r.token_hash == hash_token R0) = some r0)
    (hrev : r0.revoked_at = none)
    (hnexp : ¬ (r0.expires_at < now))
    (hufind : db.users.find? (fun x => x.id == R0.claims.sub) = some u)
    (hact : u.is_active = true)
    (hfresh : ∀ r ∈ db.refresh_tokens, r.token_hash ≠
      hash_token (create_refresh_token s R0.claims.sub (some fam) now jR "").1) :
    let R1 := (create_refresh_token s R0.claims.sub (some fam) now jR "").1
    let rotated := updateFirst (fun r => r.token_hash == hash_token R0)
      (fun r => { r with revoked_at := some now }) db.refresh_tokens
    let db1 : Db :=
      { db with refresh_tokens := rotated ++ [rotation_new_row s R0 fam now jR rid] }
    refresh_tokens_op s db R0 now jA jR rid =
      (db1, Except.ok ⟨(create_access_token s R0.claims.sub now jA).1, R1⟩)
    ∧ refresh_tokens_op s db1 R0 now2 jA2 jR2 rid2 =
        (revoke_token_family db1 fam now2,
         Except.error (AuthError.unauthorized "Refresh token reuse detected"))
    ∧ (∀ r ∈ (revoke_token_family db1 fam now2).refresh_tokens,
        r.family_id = fam → r.revoked_at.isSome = true)
    ∧ (∀ (now3 : Nat) (jA3 jR3 rid3 : String), ∃ e,
        (refresh_tokens_op s (revoke_token_family db1 fam now2) R1 now3
          jA3 jR3 rid3).2 = Except.error e) := by
  intro R1 rotated db1
  have hp0 : (r0.token_hash == hash_token R0) = true := by
    have h := List.find?_some hfind
    exact h
  have hpf : (({ r0 with revoked_at := some now } :
      RefreshTokenRow).token_hash == hash_token R0) = true := hp0
  have hfind1 : db1.refresh_tokens.find?
      (fun r => r.token_hash == hash_token R0) =
      some ({ r0 with revoked_at := some now }) := by
    show (rotated ++ _).find? _ = _
    exact find?_append_some _ _ (find?_updateFirst_some _ _ hfind hpf)
  refine ⟨?_, ?_, ?_, ?_⟩
  · exact refresh_rotation_success s db R0 fam r0 u now jA jR rid hdec htype
      hsub hfam hfamne hfind hrev hnexp hufind hact
  · exact refresh_rotation_reuse s db1 R0 fam _ now2 jA2 jR2 rid2 hdec2 htype
      hsub hfam hfamne hfind1 rfl
  · exact revoke_token_family_all_revoked db1 fam now2
  · intro now3 jA3 jR3 rid3
    cases hd : decode_token s now3 R1 with
    | error e =>
      exact ⟨AuthError.unauthorized "Invalid refresh token",
        by simp [refresh_tokens_op, hd]⟩
    | ok payload =>
      have hpl : payload = R1.claims := decode_token_ok_claims hd
      subst hpl
      have hg : ∀ z : RefreshTokenRow,
          ((if z.family_id == fam && z.revoked_at.isNone then
            { z with revoked_at := some now2 } else z) : RefreshTokenRow).token_hash
          = z.token_hash := by
        intro z
        by_cases hc : (z.family_id == fam && z.revoked_at.isNone) = true
        · rw [if_pos hc]
        · rw [if_neg hc]
      have hfind2 : (revoke_token_family db1 fam now2).refresh_tokens.find?
          (fun r => r.token_hash == hash_token R1) =
          some ({ rotation_new_row s R0 fam now jR rid with
                  revoked_at := some now2 }) := by
        show ((rotated ++ [rotation_new_row s R0 fam now jR rid]).map _).find? _ = _
        have hlast : ((fun r : RefreshTokenRow => r.token_hash == hash_token R1)
            (if (rotation_new_row s R0 fam now jR rid).family_id == fam &&
                (rotation_new_row s R0 fam now jR rid).revoked_at.isNone then
              { rotation_new_row s R0 fam now jR rid with revoked_at := some now2 }
            else rotation_new_row s R0 fam now jR rid)) = true := by
          simp [rotation_new_row, hg]
        rw [find?_map_last_of_prefix_false _ _ _ _ ?_ hlast]
        · simp [rotation_new_row]
        · intro x hx
          obtain ⟨y, hy, hxy⟩ := mem_updateFirst _ _ hx
          have hxh : x.token_hash = y.token_hash := by
            rcases hxy with h | h <;> rw [h]
          rw [hg, hxh]
          exact beq_eq_false_iff_ne.mpr (hfresh y hy)
      refine ⟨AuthError.unauthorized "Refresh token reuse detected", ?_⟩
      rw [refresh_rotation_reuse s (revoke_token_family db1 fam now2) R1 fam _
        now3 jA3 jR3 rid3 hd rfl hsub rfl hfamne hfind2 rfl]

/-- C2: the spec says access and refresh tokens are verified under their own
independent secrets, so a token forged with only the refresh secret is never
accepted as an access token when the two secrets differ. The code verifies
every token against the single generic `settings.secret_key`
(`decode_token`, `security.py` line 115): under a configuration whose
refresh secret coincides with `secret_key` and whose access secret differs,
a token of type `"access"` signed with only the refresh secret is accepted,
while a genuine access token signed with the configured access secret is
rejected. -/
theorem decode_ignores_per_type_secrets :
    splitSecretSettings.access_token_secret_key ≠
      splitSecretSettings.refresh_token_secret_key
    ∧ forgedAccessToken.key = splitSecretSettings.refresh_token_secret_key
    ∧ forgedAccessToken.key ≠ splitSecretSettings.access_token_secret_key
    ∧ decode_token splitSecretSettings 5 forgedAccessToken =
        Except.ok forgedAccessToken.claims
    ∧ forgedAccessToken.claims.type = "access"
    ∧ decode_token splitSecretSettings 0
        (create_access_token splitSecretSettings "victim" 0 "jti1").1 =
        Except.error "Invalid or expired token" := by
  refine ⟨by decide, rfl, by decide, ?_, rfl, ?_⟩
  · rfl
  · rfl

/-- Witness for C1: default settings, one active user `"u1"` and one stored
active credential for the refresh token `w1R0` of family `"fam1"`; rotation
at time 0, replay at time 1. -/
theorem rotation_reuse_revokes_family_witness :
    (decode_token defaultSettings 0 w1R0 = Except.ok w1R0.claims
      ∧ decode_token defaultSettings 1 w1R0 = Except.ok w1R0.claims
      ∧ w1R0.claims.type = "refresh"
      ∧ w1R0.claims.sub ≠ ""
      ∧ w1R0.claims.family = some "fam1"
      ∧ "fam1" ≠ ""
      ∧ w1Db.refresh_tokens.find?
          (fun r => r.token_hash == hash_token w1R0) = some w1Row
      ∧ w1Row.revoked_at = none
      ∧ ¬ (w1Row.expires_at < 0)
      ∧ w1Db.users.find? (fun x => x.id == w1R0.claims.sub) =
          some { id := "u1", is_active := true }
      ∧ ({ id := "u1", is_active := true } : UserRow).is_active = true
      ∧ ∀ r ∈ w1Db.refresh_tokens, r.token_hash ≠
          hash_token (create_refresh_token defaultSettings w1R0.claims.sub
            (some "fam1") 0 "r1" "").1)
    ∧ (let R1 := (create_refresh_token defaultSettings w1R0.claims.sub
        (some "fam1") 0 "r1" "").1
      let rotated := updateFirst (fun r => r.token_hash == hash_token w1R0)
        (fun r => { r with revoked_at := some 0 }) w1Db.refresh_tokens
      let db1 : Db :=
        { w1Db with refresh_tokens :=
            rotated ++ [rotation_new_row defaultSettings w1R0 "fam1" 0 "r1" "id1"] }
      refresh_tokens_op defaultSettings w1Db w1R0 0 "a1" "r1" "id1" =
        (db1, Except.ok ⟨(create_access_token defaultSettings
          w1R0.claims.sub 0 "a1").1, R1⟩)
      ∧ refresh_tokens_op defaultSettings db1 w1R0 1 "a2" "r2" "id2" =
          (revoke_token_family db1 "fam1" 1,
           Except.error (AuthError.unauthorized "Refresh token reuse detected"))
      ∧ (∀ r ∈ (revoke_token_family db1 "fam1" 1).refresh_tokens,
          r.family_id = "fam1" → r.revoked_at.isSome = true)
      ∧ (∀ (now3 : Nat) (jA3 jR3 rid3 : String), ∃ e,
          (refresh_tokens_op defaultSettings (revoke_token_family db1 "fam1" 1)
            R1 now3 jA3 jR3 rid3).2 = Except.error e)) :=
  ⟨⟨rfl, rfl, rfl, by decide, rfl, by decide, rfl, rfl, by decide, rfl, rfl,
    by decide⟩,
   rotation_reuse_revokes_family defaultSettings w1Db w1R0 "fam1" w1Row
     { id := "u1", is_active := true } 0 1 "a1" "r1" "id1" "a2" "r2" "id2"
     rfl rfl rfl (by decide) rfl (by decide) rfl rfl (by decide) rfl rfl
     (by decide)⟩

/-- C4: a stored, unrevoked refresh credential past its expiry fails
rotation with the `CredentialExpired` message, and the store is returned
completely unchanged — in particular no revocation timestamp of any family
member is touched — so a still-active sibling credential of the same family
still rotates successfully afterwards. -/
theorem expired_refresh_no_family_action (s : Settings) (db : Db)
    (R0 : Token) (fam : String) (r0 : RefreshTokenRow) (now : Nat)
    (jA jR rid : String)
    (hdec : decode_token s now R0 = Except.ok R0.claims)
    (htype : R0.claims.type = "refresh")
    (hsub : R0.claims.sub ≠ "")
    (hfam : R0.claims.family = some fam)
    (hfamne : fam ≠ "")
    (hfind : db.refresh_tokens.find?
        (fun r => r.token_hash == hash_token R0) = some r0)
    (hrev : r0.revoked_at = none)
    (hexp : r0.expires_at < now) :
    refresh_tokens_op s db R0 now jA jR rid =
      (db, Except.error (AuthError.unauthorized "Refresh token expired"))
    ∧ (∀ (T2 : Token) (r2 : RefreshTokenRow) (u2 : UserRow) (now2 : Nat)
        (jA2 jR2 rid2 : String),
        decode_token s now2 T2 = Except.ok T2.claims →
        T2.claims.type = "refresh" →
        T2.claims.sub ≠ "" →
        T2.claims.family = some fam →
        db.refresh_tokens.find?
          (fun r => r.token_hash == hash_token T2) = some r2 →
        r2.revoked_at = none →
        ¬ (r2.expires_at < now2) →
        db.users.find? (fun x => x.id == T2.claims.sub) = some u2 →
        u2.is_active = true →
        ∃ db2 toks,
          refresh_tokens_op s db T2 now2 jA2 jR2 rid2 = (db2, Except.ok toks)) := by
  constructor
  · simp [refresh_tokens_op, hdec, htype, hfam, hsub, hfamne, hfind,
      RefreshTokenRow.is_revoked, hrev, RefreshTokenRow.is_expired, hexp]
  · intro T2 r2 u2 now2 jA2 jR2 rid2 hdec2 htype2 hsub2 hfam2 hfind2 hrev2
      hnexp2 hufind2 hact2
    exact ⟨_, _, refresh_rotation_success s db T2 fam r2 u2 now2 jA2 jR2 rid2
      hdec2 htype2 hsub2 hfam2 hfamne hfind2 hrev2 hnexp2 hufind2 hact2⟩

/-- Witness for C4: default settings, two same-family rows — an expired one
for `w4Tok` and an active one for `w4Sib` — both rotations attempted at
time 10. -/
theorem expired_refresh_no_family_action_witness :
    (decode_token defaultSettings 10 w4Tok = Except.ok w4Tok.claims
      ∧ w4Tok.claims.type = "refresh"
      ∧ w4Tok.claims.sub ≠ ""
      ∧ w4Tok.claims.family = some "fam2"
      ∧ "fam2" ≠ ""
      ∧ w4Db.refresh_tokens.find?
          (fun r => r.token_hash == hash_token w4Tok) = some w4Row
      ∧ w4Row.revoked_at = none
      ∧ w4Row.expires_at < 10)
    ∧ refresh_tokens_op defaultSettings w4Db w4Tok 10 "a1" "r1" "id1" =
        (w4Db, Except.error (AuthError.unauthorized "Refresh token expired"))
    ∧ (∃ db2 toks, refresh_tokens_op defaultSettings w4Db w4Sib 10
        "a2" "r2" "id2" = (db2, Except.ok toks)) :=
  ⟨⟨rfl, rfl, by decide, rfl, by decide, rfl, rfl, by decide⟩,
   (expired_refresh_no_family_action defaultSettings w4Db w4Tok "fam2" w4Row
     10 "a1" "r1" "id1" rfl rfl (by decide) rfl (by decide) rfl rfl
     (by decide)).1,
   (expired_refresh_no_family_action defaultSettings w4Db w4Tok "fam2" w4Row
     10 "a1" "r1" "id1" rfl rfl (by decide) rfl (by decide) rfl rfl
     (by decide)).2 w4Sib w4SibRow { id := "u2", is_active := true } 10
     "a2" "r2" "id2" rfl rfl (by decide) rfl rfl rfl (by decide) rfl rfl⟩

/-- C9: revocation is one-way. For every store, every row whose
`revoked_at` is already set keeps exactly that timestamp (at its position)
across each core operation: `revoke_token_family`, `refresh_tokens`, and
`logout_user`. -/
theorem revocation_one_way (s : Settings) (db : Db) (fam : String)
    (now : Nat) (tok : Token) (jA jR rid : String) (aj : Option String)
    (rt : Option Token) (ea : Option Nat) :
    preservesRevocations db.refresh_tokens
      (revoke_token_family db fam now).refresh_tokens
    ∧ preservesRevocations db.refresh_tokens
      ((refresh_tokens_op s db tok now jA jR rid).1).refresh_tokens
    ∧ preservesRevocations db.refresh_tokens
      (logout_user s db aj rt ea now).refresh_tokens := by
  refine ⟨preservesRevocations_revoke db fam now, ?_, ?_⟩
  · unfold refresh_tokens_op
    dsimp only
    split
    · exact preservesRevocations_refl _
    · split
      · exact preservesRevocations_refl _
      · split
        · exact preservesRevocations_refl _
        · split
          · exact preservesRevocations_refl _
          · split
            · exact preservesRevocations_revoke_map _ now _
            · rename_i token_record hfind
              split
              · exact preservesRevocations_revoke_map _ now _
              · rename_i hnotrev
                split
                · exact preservesRevocations_refl _
                · split
                  · exact preservesRevocations_refl _
                  · split
                    · exact preservesRevocations_refl _
                    · dsimp only
                      refine preservesRevocations_append _ ?_
                      refine preservesRevocations_updateFirst _ now hfind ?_
                      cases h : token_record.revoked_at with
                      | none => rfl
                      | some v =>
                        exact absurd (by simp [RefreshTokenRow.is_revoked, h])
                          hnotrev
  · unfold logout_user
    repeat' split
    all_goals try exact preservesRevocations_refl _
    all_goals exact preservesRevocations_revoke_map _ now _

/-- C5: for every subject, decoding the token produced by
`create_access_token` yields the issued subject, and decoding the token
produced by `create_refresh_token` additionally yields exactly the family
identifier the function returned. Because `decode_token` verifies against
the generic `secret_key`, the round trip requires the per-type signing
secret to coincide with it, which holds for the shipped default
configuration. -/
theorem issue_decode_round_trip (s : Settings) (subject jtiA jtiR fresh : String)
    (fam : Option String) (now : Nat)
    (ha : s.access_token_secret_key = s.secret_key)
    (hr : s.refresh_token_secret_key = s.secret_key) :
    decode_token s now (create_access_token s subject now jtiA).1 =
      Except.ok (create_access_token s subject now jtiA).1.claims
    ∧ (create_access_token s subject now jtiA).1.claims.sub = subject
    ∧ decode_token s now (create_refresh_token s subject fam now jtiR fresh).1 =
      Except.ok (create_refresh_token s subject fam now jtiR fresh).1.claims
    ∧ (create_refresh_token s subject fam now jtiR fresh).1.claims.sub = subject
    ∧ (create_refresh_token s subject fam now jtiR fresh).1.claims.family =
      some (create_refresh_token s subject fam now jtiR fresh).2.2.1 := by
  refine ⟨?_, rfl, ?_, rfl, rfl⟩
  · simp only [create_access_token, decode_token]
    rw [if_pos]
    exact ⟨ha, trivial, trivial, Nat.le_refl _, Nat.le_add_right _ _⟩
  · simp only [create_refresh_token, decode_token]
    rw [if_pos]
    exact ⟨hr, trivial, trivial, Nat.le_refl _, Nat.le_add_right _ _⟩

/-- Witness for C5 at the default settings, subject `"alice"`, time 42. -/
theorem issue_decode_round_trip_witness :
    (defaultSettings.access_token_secret_key = defaultSettings.secret_key
      ∧ defaultSettings.refresh_token_secret_key = defaultSettings.secret_key)
    ∧ (decode_token defaultSettings 42
          (create_access_token defaultSettings "alice" 42 "j1").1 =
        Except.ok (create_access_token defaultSettings "alice" 42 "j1").1.claims
      ∧ (create_access_token defaultSettings "alice" 42 "j1").1.claims.sub = "alice"
      ∧ decode_token defaultSettings 42
          (create_refresh_token defaultSettings "alice" none 42 "j2" "f0").1 =
        Except.ok (create_refresh_token defaultSettings "alice" none 42 "j2" "f0").1.claims
      ∧ (create_refresh_token defaultSettings "alice" none 42 "j2" "f0").1.claims.sub = "alice"
      ∧ (create_refresh_token defaultSettings "alice" none 42 "j2" "f0").1.claims.family =
        some (create_refresh_token defaultSettings "alice" none 42 "j2" "f0").2.2.1) :=
  ⟨⟨rfl, rfl⟩,
   issue_decode_round_trip defaultSettings "alice" "j1" "j2" "f0" none 42 rfl rfl⟩

/-- C7: when the record for `(user, key)` exists in status `processing` and
is within the TTL, `start_idempotency_request` returns the Conflict triple
`(False, 409, ...)` and leaves the store untouched: no record is modified or
inserted and the wrapped handler is not allowed to run. -/
theorem idempotency_processing_conflict (db : Db) (u k : String) (now : Nat)
    (r : IdempotencyKeyRow)
    (hfind : db.idempotency_keys.find?
        (fun x => x.key == generate_idempotency_hash u k) = some r)
    (hst : r.status = "processing")
    (httl : now - r.created_at ≤ IDEMPOTENCY_KEY_TTL) :
    start_idempotency_request db u k now =
      (db, (false, some 409, some [("message", "Request already in progress")])) := by
  have hn : ¬ (IDEMPOTENCY_KEY_TTL < now - r.created_at) := Nat.not_lt.mpr httl
  have h1 : (("processing" : String) == "completed") = false := by decide
  have h2 : (("processing" : String) == "processing") = true := by decide
  simp [start_idempotency_request, get_idempotency_record, hfind, hn, hst, h1, h2]

/-- Witness for C7: a store with one `processing` record at key
`("u1","k2")`, queried at time 5. -/
theorem idempotency_processing_conflict_witness :
    (c7Db.idempotency_keys.find?
        (fun x => x.key == generate_idempotency_hash "u1" "k2") = some c7Record
      ∧ c7Record.status = "processing"
      ∧ 5 - c7Record.created_at ≤ IDEMPOTENCY_KEY_TTL)
    ∧ start_idempotency_request c7Db "u1" "k2" 5 =
      (c7Db, (false, some 409,
        some [("message", "Request already in progress")])) :=
  ⟨⟨by decide, rfl, by decide⟩,
   idempotency_processing_conflict c7Db "u1" "k2" 5 c7Record (by decide) rfl
     (by decide)⟩

/-- C6: happy path of the idempotency coordinator. With no record for
`(u, k)`, `start_idempotency_request` inserts a `processing` record and
returns the Proceed triple; after `store_idempotency_response` stamps it
`completed` with the response, every later `start_idempotency_request`
within the TTL returns the Cached triple carrying exactly the stored status
code and body, leaving the store unchanged (`should_proceed = false`, so
the wrapped handler is not run again). -/
theorem idempotency_happy_path (db : Db) (u k : String)
    (now1 now2 status : Nat) (body : List (String × String))
    (hnone : db.idempotency_keys.find?
        (fun x => x.key == generate_idempotency_hash u k) = none)
    (httl : now2 - now1 ≤ IDEMPOTENCY_KEY_TTL) :
    let procRec : IdempotencyKeyRow :=
      { key := generate_idempotency_hash u k, user_id := u,
        status := "processing", response_status := none,
        response_body := none, created_at := now1 }
    let compRec : IdempotencyKeyRow :=
      { procRec with status := "completed",
                     response_status := some (PyIntStr.mk status),
                     response_body := some body }
    let db1 : Db :=
      { db with idempotency_keys := db.idempotency_keys ++ [procRec] }
    let db2 : Db :=
      { db with idempotency_keys := db.idempotency_keys ++ [compRec] }
    start_idempotency_request db u k now1 = (db1, (true, none, none))
    ∧ store_idempotency_response db1 u k status body = db2
    ∧ start_idempotency_request db2 u k now2 =
        (db2, (false, some status, some body)) := by
  intro procRec compRec db1 db2
  have hall : ∀ x ∈ db.idempotency_keys,
      (x.key == generate_idempotency_hash u k) = false := by
    intro x hx
    exact Bool.eq_false_iff.mpr (List.find?_eq_none.mp hnone x hx)
  have hany : db.idempotency_keys.any
      (fun x => x.key == generate_idempotency_hash u k) = false :=
    any_eq_false_of_find?_eq_none _ hnone
  have hp : (procRec.key == generate_idempotency_hash u k) = true := by
    simp [procRec]
  have hc : (compRec.key == generate_idempotency_hash u k) = true := by
    simp [compRec, procRec]
  refine ⟨?_, ?_, ?_⟩
  · simp [start_idempotency_request, get_idempotency_record, hnone,
      start_idempotency_request.start_insert, hany, db1, procRec]
  · simp only [store_idempotency_response, db1, db2]
    rw [updateFirst_append_of_forall_not _ _ _ _ hall]
    simp [updateFirst, hp, compRec]
  · have hfind2 : db2.idempotency_keys.find?
        (fun x => x.key == generate_idempotency_hash u k) = some compRec := by
      show (db.idempotency_keys ++ [compRec]).find? _ = _
      rw [find?_append_none _ _ hnone]
      exact List.find?_cons_of_pos _ hc
    have hn : ¬ (IDEMPOTENCY_KEY_TTL < now2 - compRec.created_at) :=
      Nat.not_lt.mpr httl
    have h1 : (("completed" : String) == "completed") = true := by decide
    simp [start_idempotency_request, get_idempotency_record, hfind2, hn, h1,
      cached_status, cached_body, compRec]

/-- Witness for C6: empty store, key `("u1","k1")`, response `(201, [(id, x)])`,
second call 100 seconds later. -/
theorem idempotency_happy_path_witness :
    (emptyDb.idempotency_keys.find?
        (fun x => x.key == generate_idempotency_hash "u1" "k1") = none
      ∧ 100 - 0 ≤ IDEMPOTENCY_KEY_TTL)
    ∧ (let procRec : IdempotencyKeyRow :=
        { key := generate_idempotency_hash "u1" "k1", user_id := "u1",
          status := "processing", response_status := none,
          response_body := none, created_at := 0 }
      let compRec : IdempotencyKeyRow :=
        { procRec with status := "completed",
                       response_status := some (PyIntStr.mk 201),
                       response_body := some [("id", "x")] }
      let db1 : Db :=
        { emptyDb with idempotency_keys := emptyDb.idempotency_keys ++ [procRec] }
      let db2 : Db :=
        { emptyDb with idempotency_keys := emptyDb.idempotency_keys ++ [compRec] }
      start_idempotency_request emptyDb "u1" "k1" 0 = (db1, (true, none, none))
      ∧ store_idempotency_response db1 "u1" "k1" 201 [("id", "x")] = db2
      ∧ start_idempotency_request db2 "u1" "k1" 100 =
          (db2, (false, some 201, some [("id", "x")]))) :=
  ⟨⟨rfl, by decide⟩,
   idempotency_happy_path emptyDb "u1" "k1" 0 100 201 [("id", "x")] rfl
     (by decide)⟩

/-- C10: a record older than the 24-hour TTL — whatever its status — is
deleted at read time by the next `start_idempotency_request` for its
`(user, key)`, which then proceeds: the stale record is replaced by a fresh
`processing` one and the Proceed triple is returned, without waiting for the
Janitor sweep. -/
theorem idempotency_ttl_read_expiry (db : Db) (u k : String) (now : Nat)
    (r : IdempotencyKeyRow)
    (hfilter : db.idempotency_keys.filter
        (fun x => x.key == generate_idempotency_hash u k) = [r])
    (httl : IDEMPOTENCY_KEY_TTL < now - r.created_at) :
    let freshRec : IdempotencyKeyRow :=
      { key := generate_idempotency_hash u k, user_id := u,
        status := "processing", response_status := none,
        response_body := none, created_at := now }
    let kept := db.idempotency_keys.eraseP
      (fun x => x.key == generate_idempotency_hash u k)
    start_idempotency_request db u k now =
      ({ db with idempotency_keys := kept ++ [freshRec] },
       (true, none, none)) := by
  intro freshRec kept
  have hfind : db.idempotency_keys.find?
      (fun x => x.key == generate_idempotency_hash u k) = some r :=
    find?_of_filter_eq_singleton _ _ _ hfilter
  have hany : (db.idempotency_keys.eraseP
      (fun x => x.key == generate_idempotency_hash u k)).any
      (fun x => x.key == generate_idempotency_hash u k) = false :=
    any_eraseP_of_filter_eq_singleton _ _ _ hfilter
  simp [start_idempotency_request, get_idempotency_record, hfind, httl,
    start_idempotency_request.start_insert, hany]

/-- Witness for C10: a `processing` record created at time 0, read again at
time 86401, one second past the 24-hour TTL: the orphaned record is deleted
and the caller proceeds instead of getting a Conflict. -/
theorem idempotency_ttl_read_expiry_witness :
    (c10Db.idempotency_keys.filter
        (fun x => x.key == generate_idempotency_hash "u1" "k9") = [c10Record]
      ∧ IDEMPOTENCY_KEY_TTL < 86401 - c10Record.created_at)
    ∧ start_idempotency_request c10Db "u1" "k9" 86401 =
        ({ c10Db with idempotency_keys :=
            [{ key := generate_idempotency_hash "u1" "k9", user_id := "u1",
               status := "processing", response_status := none,
               response_body := none, created_at := 86401 }] },
         (true, none, none)) :=
  ⟨⟨by decide, by decide⟩,
   idempotency_ttl_read_expiry c10Db "u1" "k9" 86401 c10Record (by decide)
     (by decide)⟩

/-- C8: a `failed` record is not authoritative. First, whenever the stored
record for `(u, k)` is in status `failed` (and within the TTL),
`start_idempotency_request` deletes it, inserts a fresh `processing` record
and returns the Proceed triple, so the handler runs again. Second, the
scenario from the spec: starting from a store with no record, Begin
proceeds, `mark_idempotency_failed` stamps the record `failed`, and a
subsequent Begin proceeds again with a fresh `processing` record. -/
theorem idempotency_failed_retry :
    (∀ (db : Db) (u k : String) (now : Nat) (r : IdempotencyKeyRow),
      db.idempotency_keys.filter
          (fun x => x.key == generate_idempotency_hash u k) = [r] →
      r.status = "failed" →
      now - r.created_at ≤ IDEMPOTENCY_KEY_TTL →
      let freshRec : IdempotencyKeyRow :=
        { key := generate_idempotency_hash u k, user_id := u,
          status := "processing", response_status := none,
          response_body := none, created_at := now }
      let kept := db.idempotency_keys.eraseP
        (fun x => x.key == generate_idempotency_hash u k)
      start_idempotency_request db u k now =
        ({ db with idempotency_keys := kept ++ [freshRec] },
         (true, none, none)))
    ∧ (∀ (db : Db) (u k : String) (now1 now3 : Nat),
      db.idempotency_keys.find?
          (fun x => x.key == generate_idempotency_hash u k) = none →
      now3 - now1 ≤ IDEMPOTENCY_KEY_TTL →
      let procRec1 : IdempotencyKeyRow :=
        { key := generate_idempotency_hash u k, user_id := u,
          status := "processing", response_status := none,
          response_body := none, created_at := now1 }
      let db1 : Db :=
        { db with idempotency_keys := db.idempotency_keys ++ [procRec1] }
      let dbF : Db :=
        { db with idempotency_keys :=
            db.idempotency_keys ++ [{ procRec1 with status := "failed" }] }
      let procRec3 : IdempotencyKeyRow :=
        { procRec1 with created_at := now3 }
      start_idempotency_request db u k now1 = (db1, (true, none, none))
      ∧ mark_idempotency_failed db1 u k = dbF
      ∧ start_idempotency_request dbF u k now3 =
          ({ db with idempotency_keys := db.idempotency_keys ++ [procRec3] },
           (true, none, none))) := by
  constructor
  · intro db u k now r hfilter hst httl freshRec kept
    have hfind : db.idempotency_keys.find?
        (fun x => x.key == generate_idempotency_hash u k) = some r :=
      find?_of_filter_eq_singleton _ _ _ hfilter
    have hany : kept.any
        (fun x => x.key == generate_idempotency_hash u k) = false :=
      any_eraseP_of_filter_eq_singleton _ _ _ hfilter
    have hn : ¬ (IDEMPOTENCY_KEY_TTL < now - r.created_at) :=
      Nat.not_lt.mpr httl
    have h1 : (("failed" : String) == "completed") = false := by decide
    have h2 : (("failed" : String) == "processing") = false := by decide
    have h3 : (("failed" : String) == "failed") = true := by decide
    simp [start_idempotency_request, get_idempotency_record, hfind, hn, hst,
      h1, h2, h3, start_idempotency_request.start_insert, hany, kept, freshRec]
  · intro db u k now1 now3 hnone httl procRec1 db1 dbF procRec3
    have hall : ∀ x ∈ db.idempotency_keys,
        (x.key == generate_idempotency_hash u k) = false := by
      intro x hx
      exact Bool.eq_false_iff.mpr (List.find?_eq_none.mp hnone x hx)
    have hany : db.idempotency_keys.any
        (fun x => x.key == generate_idempotency_hash u k) = false :=
      any_eq_false_of_find?_eq_none _ hnone
    have hp : (procRec1.key == generate_idempotency_hash u k) = true := by
      simp [procRec1]
    refine ⟨?_, ?_, ?_⟩
    · simp [start_idempotency_request, get_idempotency_record, hnone,
        start_idempotency_request.start_insert, hany, db1, procRec1]
    · simp only [mark_idempotency_failed, db1, dbF]
      rw [updateFirst_append_of_forall_not _ _ _ _ hall]
      simp [updateFirst, hp]
    · have hfindF : dbF.idempotency_keys.find?
          (fun x => x.key == generate_idempotency_hash u k) =
          some { procRec1 with status := "failed" } := by
        show (db.idempotency_keys ++ _).find? _ = _
        rw [find?_append_none _ _ hnone]
        exact List.find?_cons_of_pos _ (by simp [procRec1])
      have hn : ¬ (IDEMPOTENCY_KEY_TTL <
          now3 - ({ procRec1 with status := "failed" } :
            IdempotencyKeyRow).created_at) := Nat.not_lt.mpr httl
      have h1 : (("failed" : String) == "completed") = false := by decide
      have h2 : (("failed" : String) == "processing") = false := by decide
      have h3 : (("failed" : String) == "failed") = true := by decide
      have herase : (db.idempotency_keys ++
          [({ procRec1 with status := "failed" } : IdempotencyKeyRow)]).eraseP
          (fun x => x.key == generate_idempotency_hash u k) =
          db.idempotency_keys := by
        rw [eraseP_append_of_forall_not _ _ _ hall]
        simp [List.eraseP_cons, procRec1]
      simp [start_idempotency_request, get_idempotency_record, hfindF, hn,
        h1, h2, h3, start_idempotency_request.start_insert, dbF, herase,
        hany, procRec3, procRec1]

/-- Witness for C8 at both components: the general `failed` case on a store
holding one failed record for `("u1","k3")` at time 50, and the
Begin/Fail/Begin scenario on the empty store at times 0 and 100. -/
theorem idempotency_failed_retry_witness :
    (c8Db.idempotency_keys.filter
        (fun x => x.key == generate_idempotency_hash "u1" "k3") = [c8Record]
      ∧ c8Record.status = "failed"
      ∧ 50 - c8Record.created_at ≤ IDEMPOTENCY_KEY_TTL
      ∧ start_idempotency_request c8Db "u1" "k3" 50 =
          ({ c8Db with idempotency_keys :=
              [{ key := generate_idempotency_hash "u1" "k3", user_id := "u1",
                 status := "processing", response_status := none,
                 response_body := none, created_at := 50 }] },
           (true, none, none)))
    ∧ (emptyDb.idempotency_keys.find?
        (fun x => x.key == generate_idempotency_hash "u2" "k4") = none
      ∧ 100 - 0 ≤ IDEMPOTENCY_KEY_TTL
      ∧ start_idempotency_request emptyDb "u2" "k4" 0 =
          ({ emptyDb with idempotency_keys :=
              [{ key := generate_idempotency_hash "u2" "k4", user_id := "u2",
                 status := "processing", response_status := none,
                 response_body := none, created_at := 0 }] },
           (true, none, none))) :=
  ⟨⟨by decide, rfl, by decide,
    (idempotency_failed_retry.1 c8Db "u1" "k3" 50 c8Record (by decide) rfl
      (by decide))⟩,
   ⟨rfl, by decide,
    (idempotency_failed_retry.2 emptyDb "u2" "k4" 0 100 rfl (by decide)).1⟩⟩

/-- C3: the spec says one Janitor run sweeps all three stores, including
`RefreshCredential` rows past expiry. The sweep body (`cleanup_task`,
`tasks.py`) only calls `cleanup_expired_idempotency_keys` and
`cleanup_expired_revoked_tokens`; the repository's own
`cleanup_expired_refresh_tokens` is never called, so an expired refresh row
survives a run that deletes the expired rows of the other two stores. -/
theorem janitor_skips_expired_refresh_rows :
    (cleanup_task_iteration c3Db 100000).refresh_tokens = [c3RefreshRow]
    ∧ c3RefreshRow.expires_at < 100000
    ∧ (cleanup_task_iteration c3Db 100000).revoked_access_tokens = []
    ∧ (cleanup_task_iteration c3Db 100000).idempotency_keys = []
    ∧ ((cleanup_expired_refresh_tokens c3Db 100000).1).refresh_tokens = [] := by
  refine ⟨rfl, by decide, rfl, rfl, rfl⟩

end TrackForge
